import Mathlib

/-
Shallow embedding of the page-behavior controller in assets/js/main.js
(class LCGlobalEnterprises), together with theorems about its event
handlers.  DOM elements are modelled as records of the properties the
script reads or writes; each JavaScript handler becomes a pure function
from the relevant state (plus event data) to the new state, with network
requests and DOM writes returned explicitly so that frame conditions and
"no network call" properties can be stated.
-/

set_option maxRecDepth 4000

/-! ## Form fields and per-field validation (main.js lines 211-257) -/

/-- The `.error-message` sibling element of a form field: the script reads
and writes only its `textContent` and `style.opacity`. -/
structure ErrorMessageEl where
  textContent : String
  opacity : String
deriving Repr, DecidableEq

/-- A form field carrying a `required` attribute (or not).  `valueMissing`,
`typeMismatch` and `otherInvalid` model the browser's `field.validity`
flags (`otherInvalid` stands for any further constraint violation such as
`patternMismatch`); `validity.valid` is their joint negation.
`errorMessageEl` is the `.error-message` element found via
`field.parentElement.querySelector`, absent when the markup lacks one. -/
structure FormField where
  name : String
  value : String
  required : Bool
  fieldType : String
  valueMissing : Bool
  typeMismatch : Bool
  otherInvalid : Bool
  ariaInvalid : String
  errorMessageEl : Option ErrorMessageEl
deriving Repr, DecidableEq

/-- `field.validity.valid`: true iff no constraint-violation flag is set. -/
def validityValid (f : FormField) : Bool :=
  !(f.valueMissing || f.typeMismatch || f.otherInvalid)

/-- `showFieldError(field, message)` (main.js lines 242-249): writes the
message into the error element, makes it visible, marks the field
aria-invalid. -/
def showFieldError (f : FormField) (message : String) : FormField :=
  { f with
    errorMessageEl := f.errorMessageEl.map
      (fun e => { e with textContent := message, opacity := "1" }),
    ariaInvalid := "true" }

/-- `clearFieldError(field)` (main.js lines 251-257): hides the error
element by setting its opacity to "0" (leaving its text in place) and
marks the field aria-valid. -/
def clearFieldError (f : FormField) : FormField :=
  { f with
    errorMessageEl := f.errorMessageEl.map (fun e => { e with opacity := "0" }),
    ariaInvalid := "false" }

/-- The message chosen by `validateField` for an invalid field
(main.js lines 224-232). -/
def fieldErrorMessage (f : FormField) : String :=
  if f.valueMissing then "This field is required"
  else if f.typeMismatch then
    (if f.fieldType == "email" then "Please enter a valid email address" else "")
  else ""

/-- `validateField(field)` (main.js lines 220-240): on an invalid field
show the chosen message and return false, otherwise clear the error and
return true. -/
def validateField (f : FormField) : FormField × Bool :=
  if !(validityValid f) then (showFieldError f (fieldErrorMessage f), false)
  else (clearFieldError f, true)

/-! ## Form submission (main.js lines 259-328) -/

/-- The `#form-status` element: the script writes its `textContent` and
`className`. -/
structure FormStatusEl where
  textContent : String
  className : String
deriving Repr, DecidableEq

/-- The contact form: its `action` URL, its fields, and the two submit
button properties the script toggles (`classList` membership of "loading"
and `disabled`). -/
structure ContactForm where
  action : String
  fields : List FormField
  submitBtnLoadingClass : Bool
  submitBtnDisabled : Bool
deriving Repr, DecidableEq

/-- One outgoing HTTP request as issued by `fetch` in
`handleFormSubmission`. -/
structure NetRequest where
  url : String
  method : String
  body : List (String × String)
  headers : List (String × String)
deriving Repr, DecidableEq

/-- The outcome of the awaited `fetch`: a response with `response.ok`
true (status 200-299) or false, or a thrown network/transport error. -/
inductive FetchOutcome
  | response (ok : Bool)
  | networkFailure
deriving Repr, DecidableEq

/-- Result of running `handleFormSubmission` to completion: the final
form state, the final `#form-status` element (if present), and the list
of network requests issued during the run. -/
structure SubmissionResult where
  form : ContactForm
  formStatus : Option FormStatusEl
  requests : List NetRequest
deriving Repr, DecidableEq

/-- `setFormLoading(button, loading)` (main.js lines 306-314). -/
def setFormLoading (form : ContactForm) (loading : Bool) : ContactForm :=
  if loading then
    { form with submitBtnLoadingClass := true, submitBtnDisabled := true }
  else
    { form with submitBtnLoadingClass := false, submitBtnDisabled := false }

/-- `showFormStatus(element, message, type)` (main.js lines 316-328): a
silent no-op when the status element is absent, otherwise sets its text
and class.  (The 5-second auto-hide scheduled for success messages fires
after the handler completes and is not part of the handler's result.) -/
def showFormStatus (el : Option FormStatusEl) (message ty : String) :
    Option FormStatusEl :=
  match el with
  | none => none
  | some e => some { e with textContent := message, className := "form-status " ++ ty }

/-- `new FormData(form)` as posted by the handler: the fields' names and
current values. -/
def encodeFormData (form : ContactForm) : List (String × String) :=
  form.fields.map (fun f => (f.name, f.value))

/-- `form.reset()`: every field's value returns to its default (modelled
as the empty string, the default for the contact form's inputs). -/
def resetFormFields (form : ContactForm) : ContactForm :=
  { form with fields := form.fields.map (fun f => { f with value := "" }) }

/-- Success message literal (main.js line 293). -/
def successMessage : String :=
  "Thank you! Your message has been sent successfully. We will contact you shortly."

/-- Failure message literal (main.js line 300). -/
def failureMessage : String :=
  "Sorry, there was an error sending your message. Please try again or email us directly at libertyengetelo@gmail.com."

/-- The `fields.forEach` validation pass of `handleFormSubmission`
(main.js lines 264-271): `querySelectorAll('[required]')` selects the
required fields, each is run through `validateField`, and `isValid` ends
up false iff some required field failed. -/
def validateRequiredFields : List FormField → List FormField × Bool
  | [] => ([], true)
  | f :: rest =>
    let r := validateRequiredFields rest
    if f.required then
      let v := validateField f
      (v.1 :: r.1, v.2 && r.2)
    else (f :: r.1, r.2)

/-- `handleFormSubmission(form)` (main.js lines 259-304), with the
awaited fetch outcome supplied as a parameter.  If validation fails the
handler shows the aggregate error and returns before any fetch; otherwise
it enters the loading state, issues exactly one POST with an
`Accept: application/json` header, handles the three outcomes (ok
response, non-ok response which throws into the catch, thrown network
error), and clears the loading state in the `finally` block. -/
def handleFormSubmission (form : ContactForm) (formStatus : Option FormStatusEl)
    (outcome : FetchOutcome) : SubmissionResult :=
  let vr := validateRequiredFields form.fields
  let form1 := { form with fields := vr.1 }
  if !vr.2 then
    { form := form1,
      formStatus := showFormStatus formStatus "Please fix the errors above" "error",
      requests := [] }
  else
    let form2 := setFormLoading form1 true
    let req : NetRequest :=
      { url := form2.action, method := "POST", body := encodeFormData form2,
        headers := [("Accept", "application/json")] }
    match outcome with
    | FetchOutcome.response true =>
      { form := setFormLoading (resetFormFields form2) false,
        formStatus := showFormStatus formStatus successMessage "success",
        requests := [req] }
    | FetchOutcome.response false =>
      { form := setFormLoading form2 false,
        formStatus := showFormStatus formStatus failureMessage "error",
        requests := [req] }
    | FetchOutcome.networkFailure =>
      { form := setFormLoading form2 false,
        formStatus := showFormStatus formStatus failureMessage "error",
        requests := [req] }

/-- Specification-level characterization of the submit-time validation
verdict: every required field passes the browser validity check. -/
def requiredAllValid (fields : List FormField) : Bool :=
  fields.all (fun f => !f.required || validityValid f)

/-! ## Mobile navigation (main.js lines 44-92, 473-487) -/

/-- The mobile navigation state the script manipulates: the toggle's
`aria-expanded` attribute, whether the menu panel's `classList` contains
"active", and `document.body.style.overflow`. -/
structure NavState where
  ariaExpanded : String
  menuActive : Bool
  bodyOverflow : String
deriving Repr, DecidableEq

/-- One DOM write performed by a navigation handler. -/
inductive DomWrite
  | setAttr (name value : String)
  | classRemove (c : String)
  | classToggle (c : String)
  | setBodyOverflow (value : String)
deriving Repr, DecidableEq

/-- `closeMobileMenu(toggle, menu)` (main.js lines 88-92). -/
def closeMobileMenu (s : NavState) : NavState :=
  { s with ariaExpanded := "false", menuActive := false, bodyOverflow := "" }

/-- The DOM writes `closeMobileMenu` performs, in order. -/
def closeMenuWrites : List DomWrite :=
  [DomWrite.setAttr "aria-expanded" "false", DomWrite.classRemove "active",
   DomWrite.setBodyOverflow ""]

/-- `toggleMobileMenu(toggle, menu)` (main.js lines 79-86). -/
def toggleMobileMenu (s : NavState) : NavState :=
  let isExpanded := s.ariaExpanded == "true"
  let menuActive := !s.menuActive
  { ariaExpanded := if isExpanded then "false" else "true",
    menuActive := menuActive,
    bodyOverflow := if menuActive then "hidden" else "" }

/-- The nav-link click listener (main.js lines 58-62): closes the menu
unconditionally. -/
def navLinkClickHandler (s : NavState) : NavState × List DomWrite :=
  (closeMobileMenu s, closeMenuWrites)

/-- The document click listener (main.js lines 65-69): closes the menu
only when the click target lies outside both the menu and the toggle and
the menu is active. -/
def documentClickHandler (s : NavState)
    (targetInMenu targetInToggle : Bool) : NavState × List DomWrite :=
  if !targetInMenu && !targetInToggle && s.menuActive then
    (closeMobileMenu s, closeMenuWrites)
  else (s, [])

/-- The Escape keydown listener registered by `setupMobileNavigation`
(main.js lines 72-76). -/
def mobileNavKeydownHandler (s : NavState) (key : String) : NavState × List DomWrite :=
  if key == "Escape" && s.menuActive then (closeMobileMenu s, closeMenuWrites)
  else (s, [])

/-- The Escape keydown listener registered by `setupKeyboardNavigation`
(main.js lines 475-486); it additionally guards on the menu element
existing, which `menuPresent` models. -/
def keyboardNavKeydownHandler (s : NavState) (menuPresent : Bool)
    (key : String) : NavState × List DomWrite :=
  if key == "Escape" && (menuPresent && s.menuActive) then
    (closeMobileMenu s, closeMenuWrites)
  else (s, [])

/-- The fully-closed navigation state. -/
def closedNavState : NavState :=
  { ariaExpanded := "false", menuActive := false, bodyOverflow := "" }

/-! ## Header scroll effect (main.js lines 95-128) -/

/-- Header scroll state: the header's "scrolled" class and inline
transform, the captured `lastScrollY`, the `ticking` guard, and the
number of frame callbacks currently queued with
`requestAnimationFrame` and not yet run. -/
structure HeaderScrollState where
  scrolledClass : Bool
  transform : String
  lastScrollY : Int
  ticking : Bool
  pendingFrames : Nat
deriving Repr, DecidableEq

/-- `updateHeader` (main.js lines 102-118), run inside a frame callback
with the then-current `window.scrollY`. -/
def updateHeader (scrollY : Int) (s : HeaderScrollState) : HeaderScrollState :=
  let s1 := if scrollY > 100 then { s with scrolledClass := true }
            else { s with scrolledClass := false }
  let s2 := if scrollY > s1.lastScrollY ∧ scrollY > 100 then
              { s1 with transform := "translateY(-100%)" }
            else { s1 with transform := "translateY(0)" }
  { s2 with lastScrollY := scrollY, ticking := false }

/-- Events driving the header scroll machinery: a raw scroll event
(handled by `onScroll`, main.js lines 120-125) or the browser running
one queued frame callback with the current scroll position. -/
inductive HeaderEvent
  | scroll
  | frame (scrollY : Int)
deriving Repr, DecidableEq

/-- One step of the header scroll machinery.  A scroll event queues a
frame callback and sets `ticking` only when `ticking` is clear; a frame
event runs `updateHeader` (which clears `ticking`) and consumes one
queued callback.  A frame event with nothing queued cannot occur in the
browser and is a no-op here. -/
def headerStep (s : HeaderScrollState) : HeaderEvent → HeaderScrollState
  | HeaderEvent.scroll =>
    if !s.ticking then { s with pendingFrames := s.pendingFrames + 1, ticking := true }
    else s
  | HeaderEvent.frame y =>
    if s.pendingFrames > 0 then
      { updateHeader y s with pendingFrames := s.pendingFrames - 1 }
    else s

/-- Run a sequence of header events from a state. -/
def runHeaderEvents (s : HeaderScrollState) (evs : List HeaderEvent) : HeaderScrollState :=
  evs.foldl headerStep s

/-- The state set up by `setupHeaderScroll` (main.js lines 99-100):
`lastScrollY` captures the current scroll position, `ticking` starts
false, nothing is queued. -/
def initHeaderState (y : Int) : HeaderScrollState :=
  { scrolledClass := false, transform := "", lastScrollY := y,
    ticking := false, pendingFrames := 0 }

/-! ## Smooth scrolling (main.js lines 131-162) -/

/-- Result of a completed anchor-link click: either the handler returned
early (bare "#" href or missing target) or it scrolled to the computed
position, having closed the menu iff it was open. -/
inductive AnchorOutcome
  | noScroll
  | scrolled (top : Int) (menuWasOpen : Bool)
deriving Repr, DecidableEq

/-- The anchor-link click listener (main.js lines 135-160).
`navTogglePresent` and `navMenu` model `getElementById` results
(`navMenu = some b` means the element exists with active-class state
`b`); `headerHeight` models the `.site-header` lookup; `targetOffsetTop`
models `querySelector(href)`.  The listener dereferences
`navMenu.classList` without a null guard, and `closeMobileMenu`
dereferences the toggle, so a missing element on those paths throws a
TypeError, modelled with `Except.error`. -/
def anchorClickHandler (navTogglePresent : Bool) (navMenu : Option Bool)
    (headerHeight : Option Int) (href : String) (targetOffsetTop : Option Int) :
    Except String AnchorOutcome :=
  if href == "#" then Except.ok AnchorOutcome.noScroll
  else
    match targetOffsetTop with
    | none => Except.ok AnchorOutcome.noScroll
    | some offsetTop =>
      match navMenu with
      | none => Except.error "TypeError: navMenu is null"
      | some menuActive =>
        if menuActive && !navTogglePresent then
          Except.error "TypeError: navToggle is null"
        else
          let hh := headerHeight.getD 0
          Except.ok (AnchorOutcome.scrolled (offsetTop - hh - 20) menuActive)

/-! ## Parallax effect (main.js lines 336-394) -/

/-- Parallax state: the normalized pointer coordinates, the pending
animation-frame id (none when no loop is scheduled), and the inline
transforms of the `.floating-orb` and `.floating-cube` elements. -/
structure ParallaxState where
  mouseX : Rat
  mouseY : Rat
  rafId : Option Nat
  orbTransforms : List String
  cubeTransforms : List String
deriving Repr, DecidableEq

/-- `handleMouseMove` (main.js lines 361-367): normalizes the pointer
position relative to the hero's bounding box into [-1, 1]. -/
def handleMouseMove (s : ParallaxState)
    (clientX clientY left top width height : Rat) : ParallaxState :=
  { s with
    mouseX := ((clientX - left) / width - 1/2) * 2,
    mouseY := ((clientY - top) / height - 1/2) * 2 }

/-- One pass of `updateParallax` (main.js lines 344-359): rewrites every
orb and cube transform from the current pointer state and reschedules
itself, storing the new frame id. -/
def updateParallaxPass (s : ParallaxState) (nextRafId : Nat) : ParallaxState :=
  { s with
    orbTransforms := (List.range s.orbTransforms.length).map (fun index =>
      let speed : Rat := (index + 1 : Nat) * (1/2)
      "translate(" ++ toString (s.mouseX * speed) ++ "px, "
        ++ toString (s.mouseY * speed) ++ "px)"),
    cubeTransforms := (List.range s.cubeTransforms.length).map (fun index =>
      let speed : Rat := (index + 1 : Nat) * 2
      "rotateX(" ++ toString (s.mouseY * speed) ++ "deg) rotateY("
        ++ toString (s.mouseX * speed) ++ "deg)"),
    rafId := some nextRafId }

/-- The hero `mouseenter` listener (main.js lines 370-374): starts the
loop only when none is scheduled. -/
def handleMouseEnter (s : ParallaxState) (newRafId : Nat) : ParallaxState :=
  match s.rafId with
  | none => { s with rafId := some newRafId }
  | some _ => s

/-- The hero `mouseleave` listener (main.js lines 376-393): cancels the
scheduled frame (if any) and resets every orb and cube transform to the
empty string. -/
def handleMouseLeave (s : ParallaxState) : ParallaxState :=
  let s1 := match s.rafId with
    | some _ => { s with rafId := none }
    | none => s
  { s1 with
    orbTransforms := s1.orbTransforms.map (fun _ => ""),
    cubeTransforms := s1.cubeTransforms.map (fun _ => "") }

/-! ## Reveal-on-scroll animations (main.js lines 396-419) -/

/-- A reveal-on-scroll element: its inline opacity, transform and
transition, and whether the IntersectionObserver still observes it. -/
structure RevealElem where
  opacity : String
  transform : String
  transition : String
  observed : Bool
deriving Repr, DecidableEq

/-- The initial state applied by `setupScrollAnimations` (main.js lines
413-418): hidden, offset 30px down, transition set, observed. -/
def initRevealElem (e : RevealElem) : RevealElem :=
  { e with
    opacity := "0", transform := "translateY(30px)",
    transition := "opacity 0.6s ease, transform 0.6s ease", observed := true }

/-- One observer callback entry for the element (main.js lines 399-406):
when the element is intersecting it is made visible and unobserved.  An
unobserved element receives no further callbacks, so the step is the
identity on it. -/
def revealStep (e : RevealElem) (isIntersecting : Bool) : RevealElem :=
  if e.observed && isIntersecting then
    { e with opacity := "1", transform := "translateY(0)", observed := false }
  else e

/-! ## Supporting lemmas -/

theorem validateField_snd (f : FormField) : (validateField f).2 = validityValid f := by
  cases h : validityValid f <;> simp [validateField, h]

theorem validateField_fst_name (f : FormField) : (validateField f).1.name = f.name := by
  cases h : validityValid f <;>
    simp [validateField, h, showFieldError, clearFieldError]

theorem validateField_fst_value (f : FormField) : (validateField f).1.value = f.value := by
  cases h : validityValid f <;>
    simp [validateField, h, showFieldError, clearFieldError]

theorem validateRequiredFields_snd (fs : List FormField) :
    (validateRequiredFields fs).2 = requiredAllValid fs := by
  induction fs with
  | nil => rfl
  | cons f rest ih =>
    cases hr : f.required <;>
      simp [validateRequiredFields, requiredAllValid, hr, validateField_snd, ih,
        List.all_cons]

theorem validateRequiredFields_map_name_value (fs : List FormField) :
    (validateRequiredFields fs).1.map (fun f => (f.name, f.value))
      = fs.map (fun f => (f.name, f.value)) := by
  induction fs with
  | nil => rfl
  | cons f rest ih =>
    cases hr : f.required <;>
      simp [validateRequiredFields, hr, ih, validateField_fst_name,
        validateField_fst_value]

/-! ## Claim theorems: form submission -/

/-- C1: on submit, if re-validation of the required fields finds any field
invalid, the aggregate error status "Please fix the errors above" is shown
and no network request is issued; if every required field is valid, exactly
one POST of the form's encoded field data is issued to the form's action
URL with an Accept: application/json header. -/
theorem submission_validation_gate (form : ContactForm) (st : Option FormStatusEl)
    (oc : FetchOutcome) :
    if requiredAllValid form.fields then
      (handleFormSubmission form st oc).requests =
        [{ url := form.action, method := "POST",
           body := form.fields.map (fun f => (f.name, f.value)),
           headers := [("Accept", "application/json")] }]
    else
      (handleFormSubmission form st oc).requests = []
        ∧ (handleFormSubmission form st oc).formStatus
            = showFormStatus st "Please fix the errors above" "error" := by
  have hsnd := validateRequiredFields_snd form.fields
  have hmap := validateRequiredFields_map_name_value form.fields
  cases hv : requiredAllValid form.fields with
  | false =>
    rw [hv] at hsnd
    simp [handleFormSubmission, hsnd]
  | true =>
    rw [hv] at hsnd
    rcases oc with ok | _
    · cases ok <;>
        simp [handleFormSubmission, hsnd, setFormLoading, encodeFormData, hmap]
    · simp [handleFormSubmission, hsnd, setFormLoading, encodeFormData, hmap]

/-- C2: every submission that reaches the network call clears the loading
state afterward (loading class off, submit button re-enabled), in all
three outcomes; a 2xx response additionally shows the success message and
resets every field value, and a non-2xx response or a thrown network
error shows the fixed fallback error message. -/
theorem submission_loading_always_cleared (form : ContactForm)
    (st : Option FormStatusEl) (oc : FetchOutcome)
    (h : requiredAllValid form.fields = true) :
    (handleFormSubmission form st oc).form.submitBtnLoadingClass = false
    ∧ (handleFormSubmission form st oc).form.submitBtnDisabled = false
    ∧ (handleFormSubmission form st oc).requests.length = 1
    ∧ (oc = FetchOutcome.response true →
        (handleFormSubmission form st oc).formStatus
            = showFormStatus st successMessage "success"
          ∧ (handleFormSubmission form st oc).form.fields.all
              (fun f => f.value == "") = true)
    ∧ (oc ≠ FetchOutcome.response true →
        (handleFormSubmission form st oc).formStatus
            = showFormStatus st failureMessage "error") := by
  have hsnd := validateRequiredFields_snd form.fields
  rw [h] at hsnd
  rcases oc with ok | _
  · cases ok <;>
      simp [handleFormSubmission, hsnd, setFormLoading, resetFormFields,
        List.all_map, Function.comp]
  · simp [handleFormSubmission, hsnd, setFormLoading]

/-- A concrete valid required email field, used to instantiate the
submission theorems. -/
def cValidField : FormField :=
  { name := "email", value := "user@example.com", required := true,
    fieldType := "email", valueMissing := false, typeMismatch := false,
    otherInvalid := false, ariaInvalid := "false",
    errorMessageEl := some { textContent := "", opacity := "0" } }

/-- A concrete contact form whose only required field is valid. -/
def cValidForm : ContactForm :=
  { action := "https://formspree.io/f/demo", fields := [cValidField],
    submitBtnLoadingClass := false, submitBtnDisabled := false }

theorem submission_loading_always_cleared_witness :
    requiredAllValid cValidForm.fields = true
    ∧ ((handleFormSubmission cValidForm
          (some { textContent := "", className := "form-status" })
          FetchOutcome.networkFailure).form.submitBtnLoadingClass = false
      ∧ (handleFormSubmission cValidForm
          (some { textContent := "", className := "form-status" })
          FetchOutcome.networkFailure).form.submitBtnDisabled = false
      ∧ (handleFormSubmission cValidForm
          (some { textContent := "", className := "form-status" })
          FetchOutcome.networkFailure).requests.length = 1
      ∧ (FetchOutcome.networkFailure = FetchOutcome.response true →
          (handleFormSubmission cValidForm
            (some { textContent := "", className := "form-status" })
            FetchOutcome.networkFailure).formStatus
              = showFormStatus (some { textContent := "", className := "form-status" })
                  successMessage "success"
            ∧ (handleFormSubmission cValidForm
                (some { textContent := "", className := "form-status" })
                FetchOutcome.networkFailure).form.fields.all
                  (fun f => f.value == "") = true)
      ∧ (FetchOutcome.networkFailure ≠ FetchOutcome.response true →
          (handleFormSubmission cValidForm
            (some { textContent := "", className := "form-status" })
            FetchOutcome.networkFailure).formStatus
              = showFormStatus (some { textContent := "", className := "form-status" })
                  failureMessage "error")) :=
  ⟨by decide,
    submission_loading_always_cleared cValidForm
      (some { textContent := "", className := "form-status" })
      FetchOutcome.networkFailure (by decide)⟩

/-! ## Claim theorems: mobile navigation -/

/-- C3: each of the three dismissal paths — nav-link click, outside click
while the menu is open, Escape while the menu is open — results in the
same closed state: aria-expanded "false", active class removed, body
overflow restored to empty. -/
theorem dismissal_paths_close (s : NavState) (h : s.menuActive = true) :
    (navLinkClickHandler s).1 = closedNavState
    ∧ (documentClickHandler s false false).1 = closedNavState
    ∧ (mobileNavKeydownHandler s "Escape").1 = closedNavState := by
  refine ⟨rfl, ?_, ?_⟩ <;>
    simp [documentClickHandler, mobileNavKeydownHandler, h, closeMobileMenu,
      closedNavState]

theorem dismissal_paths_close_witness :
    (NavState.mk "true" true "hidden").menuActive = true
    ∧ ((navLinkClickHandler (NavState.mk "true" true "hidden")).1 = closedNavState
      ∧ (documentClickHandler (NavState.mk "true" true "hidden") false false).1
          = closedNavState
      ∧ (mobileNavKeydownHandler (NavState.mk "true" true "hidden") "Escape").1
          = closedNavState) :=
  ⟨rfl, dismissal_paths_close (NavState.mk "true" true "hidden") rfl⟩

/-- C4 counterexample: with the menu already closed, the nav-link click
dismissal handler still performs DOM writes (it calls closeMobileMenu
unconditionally), so it is false that every dismissal handler leaves the
attribute, class list and overflow untouched. -/
theorem navlink_click_closed_writes_cex :
    closedNavState.menuActive = false
    ∧ (navLinkClickHandler closedNavState).2 ≠ [] := by decide

/-- C4 (amended): while the menu is already closed, the outside-click
listener and both Escape listeners perform no DOM write and leave the
state unchanged; the nav-link click listener, by contrast, unconditionally
runs the close operation — performing its three redundant writes — but
the state it produces is exactly the closed state, so the state values
are unchanged whenever the menu was in the fully-closed state. -/
theorem dismissal_closed_guarded_noop (s : NavState) (h : s.menuActive = false)
    (targetInMenu targetInToggle menuPresent : Bool) :
    documentClickHandler s targetInMenu targetInToggle = (s, [])
    ∧ mobileNavKeydownHandler s "Escape" = (s, [])
    ∧ keyboardNavKeydownHandler s menuPresent "Escape" = (s, [])
    ∧ (navLinkClickHandler s).2 = closeMenuWrites
    ∧ (navLinkClickHandler s).1 = closedNavState := by
  refine ⟨?_, ?_, ?_, rfl, rfl⟩ <;>
    simp [documentClickHandler, mobileNavKeydownHandler,
      keyboardNavKeydownHandler, h]

theorem dismissal_closed_guarded_noop_witness :
    closedNavState.menuActive = false
    ∧ (documentClickHandler closedNavState false false = (closedNavState, [])
      ∧ mobileNavKeydownHandler closedNavState "Escape" = (closedNavState, [])
      ∧ keyboardNavKeydownHandler closedNavState true "Escape" = (closedNavState, [])
      ∧ (navLinkClickHandler closedNavState).2 = closeMenuWrites
      ∧ (navLinkClickHandler closedNavState).1 = closedNavState) :=
  ⟨rfl, dismissal_closed_guarded_noop closedNavState rfl false false true⟩

/-- C9: the close-menu operation is idempotent — closing twice yields the
same state as closing once, namely the closed state — and therefore the
duplicate Escape registration is harmless: running the
setupKeyboardNavigation Escape listener after the setupMobileNavigation
Escape listener changes nothing further. -/
theorem close_menu_idempotent_escape_duplicate (s : NavState) :
    closeMobileMenu (closeMobileMenu s) = closeMobileMenu s
    ∧ closeMobileMenu s = closedNavState
    ∧ (keyboardNavKeydownHandler (mobileNavKeydownHandler s "Escape").1
        true "Escape").1 = (mobileNavKeydownHandler s "Escape").1 := by
  refine ⟨rfl, rfl, ?_⟩
  cases hm : s.menuActive <;>
    simp [mobileNavKeydownHandler, keyboardNavKeydownHandler, hm, closeMobileMenu]

/-! ## Claim theorems: smooth scrolling -/

/-- C5: evaluation of the anchor-link click listener at a click on an
in-page link whose target exists while the nav menu element is absent:
line 148 of main.js reads navMenu.classList without a null guard, so the
handler throws instead of degrading to a no-op as the claim (and the
spec's graceful-degradation rule) requires. -/
theorem anchor_click_missing_menu_throws :
    anchorClickHandler true none (some 80) "#services" (some 400)
      = Except.error "TypeError: navMenu is null" := rfl

/-! ## Claim theorems: parallax -/

/-- A concrete parallax state with the pointer off-center, a scheduled
frame, and non-default transforms. -/
def cParallaxState : ParallaxState :=
  { mouseX := 1/2, mouseY := -1/3, rafId := some 7,
    orbTransforms := ["translate(3px, 4px)"],
    cubeTransforms := ["rotateX(2deg) rotateY(1deg)"] }

/-- C6 counterexample: the mouseleave listener cancels the frame request
and clears the transforms, but it leaves mouseX/mouseY at their last
values, so the claim's conjunct that the stored pointer state is reset to
neutral fails at this state. -/
theorem parallax_mouseleave_pointer_cex :
    ¬ ((handleMouseLeave cParallaxState).rafId = none
      ∧ (handleMouseLeave cParallaxState).orbTransforms.all (fun t => t == "") = true
      ∧ (handleMouseLeave cParallaxState).cubeTransforms.all (fun t => t == "") = true
      ∧ (handleMouseLeave cParallaxState).mouseX = 0
      ∧ (handleMouseLeave cParallaxState).mouseY = 0) := by
  intro h
  have hx := h.2.2.2.1
  simp [handleMouseLeave, cParallaxState] at hx

/-- C6 (amended): on every pointer-leave of the hero region the per-frame
loop is cancelled (the stored frame-request id is cleared) and every orb
and cube transform is reset to the empty string, but the stored
normalized pointer coordinates are not reset — they retain their last
values. -/
theorem parallax_mouseleave_cancels_and_resets (s : ParallaxState) :
    (handleMouseLeave s).rafId = none
    ∧ (handleMouseLeave s).orbTransforms = s.orbTransforms.map (fun _ => "")
    ∧ (handleMouseLeave s).cubeTransforms = s.cubeTransforms.map (fun _ => "")
    ∧ (handleMouseLeave s).mouseX = s.mouseX
    ∧ (handleMouseLeave s).mouseY = s.mouseY := by
  cases h : s.rafId <;> simp [handleMouseLeave, h]

/-! ## Claim theorems: header scroll coalescing -/

/-- The scheduling invariant of setupHeaderScroll: a frame callback is
queued exactly when the ticking guard is set. -/
def headerInv (s : HeaderScrollState) : Prop :=
  s.pendingFrames = if s.ticking then 1 else 0

theorem headerStep_preserves_inv (s : HeaderScrollState) (e : HeaderEvent)
    (h : headerInv s) : headerInv (headerStep s e) := by
  simp only [headerInv] at h ⊢
  cases e with
  | scroll =>
    cases ht : s.ticking <;> rw [ht] at h <;> simp at h <;>
      simp [headerStep, ht, h]
  | frame y =>
    cases ht : s.ticking <;> rw [ht] at h <;> simp at h <;>
      simp [headerStep, updateHeader, ht, h]

theorem runHeaderEvents_preserves_inv (evs : List HeaderEvent)
    (s : HeaderScrollState) (h : headerInv s) :
    headerInv (runHeaderEvents s evs) := by
  induction evs generalizing s with
  | nil => exact h
  | cons e rest ih =>
    exact ih (headerStep s e) (headerStep_preserves_inv s e h)

/-- C7: starting from the setup state, after any sequence of scroll and
frame events at most one header frame callback is outstanding, queued
exactly when the ticking guard is set; and a scroll event arriving while
the guard is set changes nothing (no additional frame callback is
requested). -/
theorem header_frame_coalescing (y : Int) (evs : List HeaderEvent)
    (sc : Bool) (tr : String) (ly : Int) (pf : Nat) :
    (runHeaderEvents (initHeaderState y) evs).pendingFrames ≤ 1
    ∧ (runHeaderEvents (initHeaderState y) evs).pendingFrames
        = (if (runHeaderEvents (initHeaderState y) evs).ticking then 1 else 0)
    ∧ headerStep (HeaderScrollState.mk sc tr ly true pf) HeaderEvent.scroll
        = HeaderScrollState.mk sc tr ly true pf := by
  have hinv : headerInv (runHeaderEvents (initHeaderState y) evs) :=
    runHeaderEvents_preserves_inv evs (initHeaderState y) (by simp [headerInv, initHeaderState])
  refine ⟨?_, hinv, ?_⟩
  · rw [hinv]; split <;> omega
  · simp [headerStep]

/-! ## Claim theorems: reveal-on-scroll -/

theorem revealStep_unobserved (e : RevealElem) (b : Bool)
    (h : e.observed = false) : revealStep e b = e := by
  simp [revealStep, h]

theorem revealFoldl_unobserved (evs : List Bool) (e : RevealElem)
    (h : e.observed = false) : evs.foldl revealStep e = e := by
  induction evs with
  | nil => rfl
  | cons b rest ih => simp [List.foldl_cons, revealStep_unobserved e b h, ih]

/-- The state a reveal element holds from the moment it first intersects:
visible, at its natural position, no longer observed. -/
def revealedElem : RevealElem :=
  { opacity := "1", transform := "translateY(0)",
    transition := "opacity 0.6s ease, transform 0.6s ease", observed := false }

/-- C8: once a reveal element (initialized hidden and observed) receives
an intersecting callback, any event sequence leaves it exactly in the
revealed state — opacity 1, natural position, unobserved — and any
further callback, intersecting or not, changes nothing: the reveal fires
exactly once and the element is never re-hidden. -/
theorem reveal_one_shot (e0 : RevealElem) (evs : List Bool) (h : true ∈ evs) :
    evs.foldl revealStep (initRevealElem e0) = revealedElem
    ∧ revealStep (evs.foldl revealStep (initRevealElem e0)) true
        = evs.foldl revealStep (initRevealElem e0)
    ∧ revealStep (evs.foldl revealStep (initRevealElem e0)) false
        = evs.foldl revealStep (initRevealElem e0) := by
  have hrun : evs.foldl revealStep (initRevealElem e0) = revealedElem := by
    induction evs with
    | nil => simp at h
    | cons b rest ih =>
      cases b with
      | true =>
        have hfirst : revealStep (initRevealElem e0) true = revealedElem := by
          simp [revealStep, initRevealElem, revealedElem]
        simp [List.foldl_cons, hfirst,
          revealFoldl_unobserved rest revealedElem rfl]
      | false =>
        have hrest : true ∈ rest := by simpa using h
        simpa [List.foldl_cons, revealStep, initRevealElem] using ih hrest
  refine ⟨hrun, ?_, ?_⟩ <;> rw [hrun] <;> exact revealStep_unobserved _ _ rfl

theorem reveal_one_shot_witness :
    true ∈ [false, true, false]
    ∧ ([false, true, false].foldl revealStep
          (initRevealElem (RevealElem.mk "0.5" "none" "" true)) = revealedElem
      ∧ revealStep ([false, true, false].foldl revealStep
          (initRevealElem (RevealElem.mk "0.5" "none" "" true))) true
          = [false, true, false].foldl revealStep
              (initRevealElem (RevealElem.mk "0.5" "none" "" true))
      ∧ revealStep ([false, true, false].foldl revealStep
          (initRevealElem (RevealElem.mk "0.5" "none" "" true))) false
          = [false, true, false].foldl revealStep
              (initRevealElem (RevealElem.mk "0.5" "none" "" true))) :=
  ⟨by decide,
    reveal_one_shot (RevealElem.mk "0.5" "none" "" true) [false, true, false]
      (by decide)⟩

/-! ## Claim theorems: clearing a field error -/

/-- C10: clearFieldError — the input-event listener's entire effect —
only sets the error element's opacity to "0" and the field's
aria-invalid attribute to "false"; the error message text is left in
place and every other field property is untouched. -/
theorem clearFieldError_frame_condition (f : FormField) :
    (clearFieldError f).ariaInvalid = "false"
    ∧ (clearFieldError f).errorMessageEl
        = f.errorMessageEl.map (fun e => { e with opacity := "0" })
    ∧ (clearFieldError f).errorMessageEl.map (fun e => e.textContent)
        = f.errorMessageEl.map (fun e => e.textContent)
    ∧ (clearFieldError f).name = f.name
    ∧ (clearFieldError f).value = f.value
    ∧ (clearFieldError f).required = f.required
    ∧ (clearFieldError f).fieldType = f.fieldType
    ∧ (clearFieldError f).valueMissing = f.valueMissing
    ∧ (clearFieldError f).typeMismatch = f.typeMismatch
    ∧ (clearFieldError f).otherInvalid = f.otherInvalid := by
  cases he : f.errorMessageEl <;> simp [clearFieldError, he]
